import Mathlib

/-!
Shallow embedding of the yad2-analyzer ingestion/search core
(`src/data_parser/src/{main,ingest,database_manager}.py`,
`src/data_parser/src/extractors/json_extractor.py`,
`src/server/app/agent/tools.py`) and proofs about it.

Loosely-typed JSON/Python values are modelled by `PyVal`; database state by
`DBState` with explicit association lists; external collaborators (the
embedding gateway, the SHA-256 content hasher, the cosine-distance ranking
of the vector store) are parameters of the functions that consume them.
Machine floats are modelled by `ℚ`; timestamps by `Nat`.
-/

/-- A loosely-typed value as it appears in the scraped JSON items and in the
Python dictionaries the parser passes around. -/
inductive PyVal where
  | vnone
  | vstr (s : String)
  | vint (n : Int)
  | vfloat (q : ℚ)
  | vbool (b : Bool)
  | vobj (fields : List (String × PyVal))

/-- Python truthiness: `None`, `""`, `0`, `0.0`, `False` and `{}` are falsy. -/
def PyVal.truthy : PyVal → Bool
  | .vnone => false
  | .vstr s => s ≠ ""
  | .vint n => n ≠ 0
  | .vfloat q => q ≠ 0
  | .vbool b => b
  | .vobj fields => !fields.isEmpty

/-- Python `str(v)`.  `str(None) = "None"` is the detail several claims turn
on.  The `repr` of a dict and of a float is abstracted (no claim evaluates
`str` on a dict or a float). -/
def PyVal.pyStr : PyVal → String
  | .vnone => "None"
  | .vstr s => s
  | .vint n => toString n
  | .vfloat q => toString q
  | .vbool b => if b then "True" else "False"
  | .vobj _ => "\x7b...\x7d"

/-- Python `a or b` : `a` when truthy, else `b`. -/
def pyOr (a b : PyVal) : PyVal :=
  if a.truthy then a else b

/-- `d.get(k, default)` on a Python dict. -/
def pyGetD (item : List (String × PyVal)) (k : String) (d : PyVal) : PyVal :=
  (item.lookup k).getD d

/-- `d.get(k)` on a Python dict (default `None`). -/
def pyGet (item : List (String × PyVal)) (k : String) : PyVal :=
  pyGetD item k .vnone

/-- The string content of a value expected to be a str (used where the
Python code would raise `AttributeError` on a non-str and the surrounding
`try` would drop the record; claims only exercise well-typed fields). -/
def PyVal.asStr : PyVal → String
  | .vstr s => s
  | _ => ""

/-- The fields of a value expected to be a dict. -/
def PyVal.asObj : PyVal → List (String × PyVal)
  | .vobj fields => fields
  | _ => []

/-- Python `s.replace(c, '')` for a one-character pattern: every occurrence
of the character is removed. -/
def removeChar (c : Char) (s : String) : String :=
  (s.data.filter (fun a => a ≠ c)).asString

/-- Python `s.strip()` : leading and trailing whitespace removed. -/
def pyStrip (s : String) : String :=
  (((s.data.dropWhile Char.isWhitespace).reverse.dropWhile Char.isWhitespace).reverse).asString

/-- Numeric value of a list of decimal digits. -/
def digitsVal (ds : List Char) : Nat :=
  ds.foldl (fun acc c => 10 * acc + (c.toNat - '0'.toNat)) 0

/-- Python `int(s)` : optional surrounding whitespace, optional sign, then
decimal digits; anything else raises (`none` here). -/
def pyIntOfString? (s : String) : Option Int :=
  let t := (pyStrip s).data
  let signed : Int × List Char :=
    match t with
    | '-' :: rest => (-1, rest)
    | '+' :: rest => (1, rest)
    | l => (1, l)
  if signed.2 ≠ [] ∧ signed.2.all Char.isDigit then
    some (signed.1 * (digitsVal signed.2 : Int))
  else
    none

/-- The price normalization of `ParserOrchestrator.ingest_json_file`
(`main.py` lines 55-61):

    price = 0
    if price_raw:
        try:
            price = int(str(price_raw).replace('₪', '').replace(',', '').strip())
        except:
            pass
-/
def parsePrice (price_raw : PyVal) : Int :=
  if price_raw.truthy then
    match pyIntOfString? (pyStrip (removeChar ',' (removeChar '₪' price_raw.pyStr))) with
    | some n => n
    | none => 0
  else
    0

/-- Python `s.replace(pat, '')` for a multi-character pattern: non-overlapping
occurrences removed left to right.  The fuel argument (instantiated with the
length of the scanned list) keeps the recursion structural; one unit of fuel
is spent per character position, which suffices because every step consumes
at least one character of the scanned list. -/
def removeSubFuel (pat : List Char) : Nat → List Char → List Char
  | _, [] => []
  | 0, l => l
  | fuel + 1, c :: cs =>
    if pat.isPrefixOf (c :: cs) && !pat.isEmpty then
      removeSubFuel pat fuel ((c :: cs).drop pat.length)
    else
      c :: removeSubFuel pat fuel cs

/-- Python `s.replace(pat, '')`. -/
def removeSub (pat : String) (s : String) : String :=
  (removeSubFuel pat.data s.data.length s.data).asString

/-- A raw scraped item: a Python dict. -/
def Item := List (String × PyVal)

/-- The dictionary `JSONExtractor._process_item` returns for one item
(`json_extractor.py` lines 70-88). -/
structure ExtractedAd where
  id : String
  status : String
  title : String
  description : String
  property_type : String
  city : PyVal
  neighborhood : PyVal
  original_data : PyVal
  context_document : String
  price : PyVal
  rooms : PyVal
  square_meters : PyVal
  floor : PyVal
  attributes : PyVal

/-- `JSONExtractor._process_item` (`json_extractor.py` lines 35-92).
`ad_id = str(item.get('adNumber'))` is modelled exactly: a missing
`adNumber` yields the string `"None"`, which passes the `if not ad_id`
guard.  Fields the source reads with `.get(..., default)` on
possibly-absent sub-dicts use the same defaults.  The `except` branch
(reached in Python only on ill-typed fields) is not modelled; claims only
exercise well-typed items. -/
def processItem (metadata : List (String × PyVal)) (item : Item) : Option ExtractedAd :=
  let ad_id := (pyGet item "adNumber").pyStr
  if ad_id = "" then none
  else
    let details := (pyGetD item "additionalDetails" (.vobj [])).asObj
    let search_text := pyStrip (pyGetD item "searchText" (.vstr "")).asStr
    let property_type := (pyGetD (pyGetD details "property" (.vobj [])).asObj "text" (.vstr "")).asStr
    let condition := (pyGetD (pyGetD details "propertyCondition" (.vobj [])).asObj "text" (.vstr "")).asStr
    let context_parts := ["Type: " ++ property_type, "Condition: " ++ condition,
                          "Description: " ++ search_text]
    let in_property := (pyGetD item "inProperty" (.vobj [])).asObj
    let amenities := (in_property.filter (fun kv => kv.2.truthy)).map (fun kv => removeSub "include" kv.1)
    let context_parts := if !amenities.isEmpty then
        context_parts ++ ["Amenities: " ++ String.intercalate ", " amenities]
      else context_parts
    let context_parts := if (pyGet metadata "city").truthy then
        ("City: " ++ (pyGet metadata "city").pyStr) :: context_parts
      else context_parts
    let context_doc := String.intercalate "\n" context_parts
    some {
      id := ad_id
      status := "active"
      title := if search_text.data.length > 100 then (search_text.data.take 100).asString ++ "..."
               else search_text
      description := search_text
      property_type := property_type
      city := pyGet metadata "city"
      neighborhood := pyGet metadata "neighborhood"
      original_data := .vobj item
      context_document := context_doc
      price := pyGet item "price"
      rooms := pyGet details "roomsCount"
      square_meters := pyGet details "squareMeter"
      floor := pyOr (pyGet details "floor") (pyGet details "buildingTopFloor")
      attributes := .vobj details }

/-- `JSONExtractor.extract` over an already-decoded `items` list
(`json_extractor.py` lines 25-33): items whose `_process_item` returns
`None` are excluded, the rest are kept in order. -/
def extract (metadata : List (String × PyVal)) (items : List Item) : List ExtractedAd :=
  items.filterMap (processItem metadata)

/-- Python `float(v)` on the value kinds the parser feeds it (numbers,
numeric strings, booleans); other kinds raise (`none`).  Fractional string
literals are not modelled (no claim feeds one). -/
def pyFloatCoerce? : PyVal → Option ℚ
  | .vint n => some (n : ℚ)
  | .vfloat q => some q
  | .vstr s => (pyIntOfString? s).map (fun n => (n : ℚ))
  | .vbool b => some (if b then 1 else 0)
  | _ => none

/-- Python `int(v)` on the value kinds the parser feeds it; other kinds
raise (`none`). -/
def pyIntCoerce? : PyVal → Option Int
  | .vint n => some n
  | .vfloat q => some q.floor
  | .vstr s => pyIntOfString? s
  | .vbool b => some (if b then 1 else 0)
  | _ => none

/-- The `ad_data` dictionary consumed by `DatabaseManager._save_single_ad`:
both ingestion paths (`main.py` lines 85-98 and the extractor dictionaries
fed through `ingest.py`) produce these keys. -/
structure AdData where
  id : String
  title : PyVal
  description : PyVal
  city : PyVal
  neighborhood : PyVal
  property_type : PyVal
  price : PyVal
  rooms : PyVal
  square_meters : PyVal
  floor : PyVal
  attributes : PyVal
  original_data : PyVal

/-- The view of an extractor dictionary that `_save_single_ad` reads
(`ingest.py` feeds `JSONExtractor` output straight to `save_ads`). -/
def ExtractedAd.toAdData (e : ExtractedAd) : AdData :=
  { id := e.id, title := .vstr e.title, description := .vstr e.description,
    city := e.city, neighborhood := e.neighborhood,
    property_type := .vstr e.property_type, price := e.price, rooms := e.rooms,
    square_meters := e.square_meters, floor := e.floor,
    attributes := e.attributes, original_data := e.original_data }

/-- The id resolution of `ParserOrchestrator.ingest_json_file`
(`main.py` line 51): `ad_id = str(item.get('id') or item.get('token'))`.
When both fields are absent the `or` yields `None` and `str` turns it into
the truthy string `"None"`. -/
def mainResolveId (item : Item) : String :=
  (pyOr (pyGet item "id") (pyGet item "token")).pyStr

/-- One iteration of the normalization loop of
`ParserOrchestrator.ingest_json_file` (`main.py` lines 50-99): `none` when
the `continue` is taken.  The `rooms`/`sqm`/`floor` block models Python's
sequential assignment under `try`: a coercion failure keeps the defaults
of the not-yet-assigned variables. -/
def mainNormalizeItem (item : Item) : Option AdData :=
  let ad_id := mainResolveId item
  if ad_id = "" then none
  else
    let price := parsePrice (pyGet item "price")
    let title := pyOr (pyGet item "title_1") (pyOr (pyGet item "title") (.vstr "No Title"))
    let description := pyOr (pyGet item "search_text") (.vstr "")
    let city := pyOr (pyGet item "city_text") (pyOr (pyGet item "city") (.vstr ""))
    let neighborhood := pyOr (pyGet item "neighborhood") (.vstr "")
    let prop_type := pyOr (pyGet item "asset_type_text") (.vstr "unknown")
    let rsf : ℚ × Int × Int :=
      if (item.lookup "additionalDetails").isSome then
        let details := (pyGet item "additionalDetails").asObj
        match pyFloatCoerce? (pyOr (pyGet details "roomsCount") (.vint 0)) with
        | none => (0, 0, 0)
        | some r =>
          match pyIntCoerce? (pyOr (pyGet details "squareMeter") (.vint 0)) with
          | none => (r, 0, 0)
          | some s =>
            match pyIntCoerce? (pyOr (pyGet details "floor") (.vint 0)) with
            | none => (r, s, 0)
            | some f => (r, s, f)
      else (0, 0, 0)
    some { id := ad_id, title := title, description := description, city := city,
           neighborhood := neighborhood, property_type := prop_type,
           price := .vint price, rooms := .vfloat rsf.1,
           square_meters := .vint rsf.2.1, floor := .vint rsf.2.2,
           attributes := .vobj item, original_data := .vobj item }

/-- The `ads_to_save` list built by the loop of `main.py` lines 50-99. -/
def mainNormalizeBatch (items : List Item) : List AdData :=
  items.filterMap mainNormalizeItem

/-- Row of the `ads` table (`models.py` lines 21-43).  `first_seen`,
`last_seen` and `status` take their server defaults on insert. -/
structure AdRow where
  id : String
  segment_id : Option String
  first_seen : Nat
  last_seen : Nat
  status : String
  title : PyVal
  description : PyVal
  city : PyVal
  neighborhood : PyVal
  property_type : PyVal
  original_data : PyVal

/-- Row of the `ad_history` table (`models.py` lines 45-61). -/
structure HistoryRow where
  ad_id : String
  scraped_at : Nat
  price : PyVal
  rooms : PyVal
  square_meters : PyVal
  floor : PyVal
  attributes : PyVal

/-- Row of the `ad_embeddings` table (`models.py` lines 63-80). -/
structure EmbRow where
  ad_id : String
  embedding : List ℚ
  context_hash : String
  created_at : Nat
  metadata_ : Option (List (String × PyVal))

/-- Row of the `segments` table (`models.py` lines 10-19). -/
structure SegRow where
  id : String
  search_url : String
  name : String
  category : String

/-- The persistent store: the four tables. -/
structure DBState where
  segments : List SegRow
  ads : List AdRow
  history : List HistoryRow
  embeddings : List EmbRow

def dbEmpty : DBState := ⟨[], [], [], []⟩

/-- `DatabaseManager._save_single_ad` (`database_manager.py` lines 61-97):
an `INSERT ... ON CONFLICT (id) DO UPDATE` of the ad — on conflict only
`last_seen`, `title`, `description` and `original_data` are set — followed
by an unconditional insert of a history row. -/
def saveSingleAd (now : Nat) (d : AdData) (segment_id : Option String) (st : DBState) : DBState :=
  let ads' :=
    if st.ads.any (fun r => r.id == d.id) then
      st.ads.map (fun r =>
        if r.id == d.id then
          { r with last_seen := now, title := d.title, description := d.description,
                   original_data := d.original_data }
        else r)
    else
      st.ads ++ [{ id := d.id, segment_id := segment_id, first_seen := now, last_seen := now,
                   status := "active", title := d.title, description := d.description,
                   city := d.city, neighborhood := d.neighborhood,
                   property_type := d.property_type, original_data := d.original_data }]
  { st with ads := ads',
            history := st.history ++ [⟨d.id, now, d.price, d.rooms, d.square_meters, d.floor,
                                       d.attributes⟩] }

/-- The body of `DatabaseManager.save_ads` (`database_manager.py` lines
47-59) before commit/rollback: all records of the batch are written inside
one open session; `fail d = true` models `_save_single_ad` raising while
processing record `d`, which aborts the loop. -/
def saveAdsGo (now : Nat) (segment_id : Option String) (fail : AdData → Bool) :
    List AdData → DBState → Option DBState
  | [], st => some st
  | d :: ds, st =>
    if fail d then none
    else saveAdsGo now segment_id fail ds (saveSingleAd now d segment_id st)

/-- `DatabaseManager.save_ads` : one session for the whole batch, committed
after the loop; any exception rolls the whole session back (the state
reverts to the pre-batch state) and is re-raised (`false` in the second
component). -/
def save_ads (now : Nat) (ads_data : List AdData) (segment_id : Option String)
    (fail : AdData → Bool) (st : DBState) : DBState × Bool :=
  match saveAdsGo now segment_id fail ads_data st with
  | some st' => (st', true)
  | none => (st, false)

/-- `DatabaseManager.create_segment` (`database_manager.py` lines 26-45):
select by `search_url`; if a row exists return its id and write nothing,
otherwise insert a new row with a fresh id and return that id. -/
def create_segment (fresh : String) (search_url name category : String) (st : DBState) :
    String × DBState :=
  match st.segments.find? (fun s => s.search_url == search_url) with
  | some s => (s.id, st)
  | none => (fresh, { st with segments := st.segments ++ [⟨fresh, search_url, name, category⟩] })

/-- `DatabaseManager.save_embedding` (`database_manager.py` lines 109-130):
`INSERT ... ON CONFLICT (ad_id) DO UPDATE` overwriting vector, hash,
metadata and the creation timestamp. -/
def save_embedding (now : Nat) (ad_id : String) (vector : List ℚ) (context_hash : String)
    (metadata : List (String × PyVal)) (st : DBState) : DBState :=
  if st.embeddings.any (fun e => e.ad_id == ad_id) then
    { st with embeddings := st.embeddings.map (fun e =>
        if e.ad_id == ad_id then
          { e with embedding := vector, context_hash := context_hash,
                   metadata_ := some metadata, created_at := now }
        else e) }
  else
    { st with embeddings := st.embeddings ++ [⟨ad_id, vector, context_hash, now, some metadata⟩] }

/-- The filter dictionary passed to `search_vectors`; `none` models an
absent key. -/
structure Filters where
  city : Option String := none
  min_price : Option ℚ := none
  max_price : Option ℚ := none
  min_rooms : Option ℚ := none
  max_rooms : Option ℚ := none

/-- The inner join `select(AdEmbedding, Ad).join(Ad)` on
`ad_embeddings.ad_id = ads.id` (`database_manager.py` line 136). -/
def joinRows (db : DBState) : List (EmbRow × AdRow) :=
  db.embeddings.filterMap (fun e =>
    (db.ads.find? (fun a => a.id == e.ad_id)).map (fun a => (e, a)))

/-- `AdEmbedding.metadata_[k].astext.cast(float)` : SQL `NULL` (absent
metadata or absent key) is `none`; a JSONB number casts to its value. -/
def metaNum (e : EmbRow) (k : String) : Option ℚ :=
  match e.metadata_ with
  | some m => (m.lookup k).bind pyFloatCoerce?
  | none => none

/-- The WHERE clause assembled by `search_vectors` (`database_manager.py`
lines 139-153).  Each branch reproduces the walrus-guarded filter: the
predicate is added only when `filters.get(key)` is truthy (present, and
non-zero / non-empty).  A `NULL` comparison (absent metadata key, `NULL`
city) is not satisfied, as in SQL. -/
def passesFilters (fl : Filters) (row : EmbRow × AdRow) : Bool :=
  (match fl.city with
   | some c => if c ≠ "" then (match row.2.city with | .vstr s => s == c | _ => false) else true
   | none => true) &&
  (match fl.min_price with
   | some p => if p ≠ 0 then (match metaNum row.1 "price" with | some v => p ≤ v | none => false)
               else true
   | none => true) &&
  (match fl.max_price with
   | some p => if p ≠ 0 then (match metaNum row.1 "price" with | some v => v ≤ p | none => false)
               else true
   | none => true) &&
  (match fl.min_rooms with
   | some q => if q ≠ 0 then (match metaNum row.1 "rooms" with | some v => q ≤ v | none => false)
               else true
   | none => true) &&
  (match fl.max_rooms with
   | some q => if q ≠ 0 then (match metaNum row.1 "rooms" with | some v => v ≤ q | none => false)
               else true
   | none => true)

/-- The row list produced by the SELECT of `search_vectors`
(`database_manager.py` lines 134-158): join, optional filters, ORDER BY
cosine distance ascending, LIMIT.  The cosine distance of a stored row to
the query vector is abstracted as the parameter `dist`. -/
def searchRows (db : DBState) (dist : EmbRow → ℚ) (lim : Nat) (filters : Option Filters) :
    List (EmbRow × AdRow) :=
  let rows := joinRows db
  let rows := match filters with
    | some fl => rows.filter (passesFilters fl)
    | none => rows
  (rows.insertionSort (fun r1 r2 => dist r1.1 ≤ dist r2.1)).take lim

/-- One element of the `matches` list `search_vectors` returns
(`database_manager.py` lines 160-169). -/
structure SearchResult where
  id : String
  title : PyVal
  description : PyVal
  price : ℚ
  city : PyVal
  rooms : ℚ
  score : ℚ

/-- The result dictionary built for one joined row (`database_manager.py`
lines 161-169): price and rooms are read back from the embedding metadata
with default `0`, and `score` is the literal `0`.  (Python's `float()`
raising on a non-numeric metadata value is abstracted to `0`; the pipeline
only stores numbers there.) -/
def toSearchResult (row : EmbRow × AdRow) : SearchResult :=
  { id := row.2.id, title := row.2.title, description := row.2.description,
    price := match row.1.metadata_ with
             | some m => (pyFloatCoerce? (pyGetD m "price" (.vint 0))).getD 0
             | none => 0,
    city := row.2.city,
    rooms := match row.1.metadata_ with
             | some m => (pyFloatCoerce? (pyGetD m "rooms" (.vint 0))).getD 0
             | none => 0,
    score := 0 }

/-- `DatabaseManager.search_vectors` (`database_manager.py` lines 132-170). -/
def search_vectors (db : DBState) (dist : EmbRow → ℚ) (lim : Nat)
    (filters : Option Filters) : List SearchResult :=
  (searchRows db dist lim filters).map toSearchResult

/-- The filter dictionary built by the `real_estate_search` tool
(`tools.py` lines 44-50): a key is added only when the argument is truthy,
so `None`, `0`, `0.0` and `""` all leave the key absent. -/
def buildFilters (min_price max_price : Option Int) (min_rooms max_rooms : Option ℚ)
    (city : Option String) : Filters :=
  { min_price := match min_price with
                 | some p => if p ≠ 0 then some (p : ℚ) else none
                 | none => none
    max_price := match max_price with
                 | some p => if p ≠ 0 then some (p : ℚ) else none
                 | none => none
    min_rooms := match min_rooms with
                 | some q => if q ≠ 0 then some q else none
                 | none => none
    max_rooms := match max_rooms with
                 | some q => if q ≠ 0 then some q else none
                 | none => none
    city := match city with
            | some c => if c ≠ "" then some c else none
            | none => none }

/-- `process_file` (`ingest.py` lines 10-68): extract, save the batch, then
for each extracted ad compute the SHA-256 of its context document
(abstracted as `hashFn`) and call the embedding gateway **unconditionally**
— the source's own comment reads "For this script, we'll just do it (or you
can implement the check)".  The second component collects the documents
sent to the gateway, one entry per call.  `gwFail doc = true` models the
gateway raising for that document (the call still happened; the embedding
upsert is skipped).  `saveFail` models `save_ads` raising, after which the
function returns with the session rolled back. -/
def process_file (hashFn : String → String) (vecOf : String → List ℚ)
    (gwFail : String → Bool) (saveFail : AdData → Bool) (now : Nat) (city : PyVal)
    (items : List Item) (st : DBState) : DBState × List String :=
  let ads := extract [("city", city)] items
  if ads.isEmpty then (st, [])
  else
    let saved := save_ads now (ads.map ExtractedAd.toAdData) none saveFail st
    if !saved.2 then (st, [])
    else
      ads.foldl (fun acc ad =>
        let context_doc := ad.context_document
        let doc_hash := hashFn context_doc
        let calls := acc.2 ++ [context_doc]
        if gwFail context_doc then (acc.1, calls)
        else
          (save_embedding now ad.id (vecOf context_doc) doc_hash
             [("price", ad.price), ("rooms", ad.rooms), ("city", ad.city)] acc.1,
           calls))
        (saved.1, [])

/-- The embedding stage of `ParserOrchestrator.ingest_json_file`
(`main.py` lines 107-125): for every ad of the batch the gateway is called
unconditionally on the concatenated text, and the embedding is saved with
the constant hash `"hash_placeholder"` — no stored hash is ever consulted. -/
def mainEmbedStage (vecOf : String → List ℚ) (gwFail : String → Bool) (now : Nat)
    (ads : List AdData) (st : DBState) : DBState × List String :=
  ads.foldl (fun acc ad =>
    let text_to_embed := ad.title.pyStr ++ " " ++ ad.description.pyStr ++ " " ++
      ad.city.pyStr ++ " " ++ ad.neighborhood.pyStr ++ " " ++ ad.property_type.pyStr ++ " " ++
      ad.rooms.pyStr ++ " rooms " ++ ad.price.pyStr ++ " NIS"
    let calls := acc.2 ++ [text_to_embed]
    if gwFail text_to_embed then (acc.1, calls)
    else
      (save_embedding now ad.id (vecOf text_to_embed) "hash_placeholder"
         [("price", ad.price), ("rooms", ad.rooms), ("sqm", ad.square_meters),
          ("city", ad.city)] acc.1,
       calls))
    (st, [])

/-! ### Concrete fixtures used by witnesses and counterexamples -/

/-- A normalized ad record with id `"1"`. -/
def adData1 : AdData :=
  ⟨"1", .vstr "t1", .vstr "d1", .vstr "Haifa", .vnone, .vstr "apt",
   .vint 5, .vfloat 3, .vint 80, .vint 2, .vobj [], .vobj []⟩

/-- A normalized ad record with id `"2"`. -/
def adData2 : AdData :=
  ⟨"2", .vstr "t2", .vstr "d2", .vstr "Haifa", .vnone, .vstr "apt",
   .vint 7, .vfloat 4, .vint 90, .vint 3, .vobj [], .vobj []⟩

/-- A raw scraped item with an id and a description. -/
def itemNice : Item := [("adNumber", .vint 7), ("searchText", .vstr "nice flat")]

/-- The context document `processItem` builds for `itemNice` under city
metadata `"Haifa"`. -/
def docNice : String := "City: Haifa\nType: \nCondition: \nDescription: nice flat"

/-- A stored embedding row for ad `"1"` with price 1,500,000 and 3 rooms. -/
def embTelAviv : EmbRow := ⟨"1", [], "h1", 0, some [("price", .vint 1500000), ("rooms", .vint 3)]⟩

/-- The ad row joined to `embTelAviv`. -/
def adTelAviv : AdRow :=
  ⟨"1", none, 0, 0, "active", .vstr "t", .vstr "d", .vstr "Tel Aviv", .vnone, .vnone, .vnone⟩

/-- A one-ad store for search claims. -/
def dbTelAviv : DBState := ⟨[], [adTelAviv], [], [embTelAviv]⟩

/-- A store holding one segment with search url `"u"`. -/
def dbSeg : DBState := ⟨[⟨"s0", "u", "n0", "c0"⟩], [], [], []⟩

/-! ### Helper lemmas -/

/-- Mapping an id-preserving update over an ad table does not change how
many rows carry a given id. -/
theorem countP_map_of_id_eq (i : String) (f : AdRow → AdRow) (hf : ∀ r, (f r).id = r.id)
    (l : List AdRow) :
    (l.map f).countP (fun r => r.id == i) = l.countP (fun r => r.id == i) := by
  induction l with
  | nil => rfl
  | cons a l ih => simp [List.countP_cons, hf, ih]

/-- When the metadata number a filter consulted is present, the result
dictionary's `price` field reads back the same value. -/
theorem toSearchResult_price_eq (row : EmbRow × AdRow) (v : ℚ)
    (h : metaNum row.1 "price" = some v) : (toSearchResult row).price = v := by
  unfold metaNum at h
  unfold toSearchResult
  cases hm : row.1.metadata_ with
  | none => rw [hm] at h; exact absurd h (by simp)
  | some m =>
    rw [hm] at h
    obtain ⟨pv, hpv, hc⟩ := Option.bind_eq_some.mp h
    simp [hm, pyGetD, hpv, hc]

/-- When the metadata number a filter consulted is present, the result
dictionary's `rooms` field reads back the same value. -/
theorem toSearchResult_rooms_eq (row : EmbRow × AdRow) (v : ℚ)
    (h : metaNum row.1 "rooms" = some v) : (toSearchResult row).rooms = v := by
  unfold metaNum at h
  unfold toSearchResult
  cases hm : row.1.metadata_ with
  | none => rw [hm] at h; exact absurd h (by simp)
  | some m =>
    rw [hm] at h
    obtain ⟨pv, hpv, hc⟩ := Option.bind_eq_some.mp h
    simp [hm, pyGetD, hpv, hc]

/-- Two filter dictionaries whose WHERE clauses agree row-wise give the
same search results. -/
theorem search_eq_of_passes_eq (db : DBState) (dist : EmbRow → ℚ) (lim : Nat)
    {f1 f2 : Filters} (h : ∀ row, passesFilters f1 row = passesFilters f2 row) :
    search_vectors db dist lim (some f1) = search_vectors db dist lim (some f2) := by
  unfold search_vectors searchRows
  dsimp only
  rw [List.filter_congr (fun row _ => h row)]

/-! ### Claims -/

/-- C6: price parsing during normalization (`main.py` lines 55-61) strips
currency symbols and thousands separators before integer coercion —
`"2,500,000 ₪"` becomes `2500000` — and any price whose cleaned string
still fails integer parsing yields `0` instead of failing the record. -/
theorem C6_price_parsing_locale_tolerant :
    parsePrice (.vstr "2,500,000 ₪") = 2500000 ∧
    parsePrice (.vstr "1,234 ₪") = 1234 ∧
    (∀ v : PyVal,
      pyIntOfString? (pyStrip (removeChar ',' (removeChar '₪' v.pyStr))) = none →
      parsePrice v = 0) := by
  refine ⟨by decide, by decide, ?_⟩
  intro v hv
  simp [parsePrice, hv]

/-- C6 witness: `"2,500,000 ₪"` parses to 2,500,000; the unparseable
`"two million"` parses to 0 via the general branch of the theorem. -/
theorem C6_price_parsing_locale_tolerant_witness :
    parsePrice (.vstr "2,500,000 ₪") = 2500000 ∧ parsePrice (.vstr "two million") = 0 :=
  ⟨C6_price_parsing_locale_tolerant.1,
   C6_price_parsing_locale_tolerant.2.2 (.vstr "two million") (by decide)⟩

/-- C5: evaluation of the id-skip logic at its failing input.  A record
with an *empty* id is skipped and the rest of the batch is still extracted
(second and third conjuncts, the half of the claim that holds), but a
record with a *missing* id is not skipped: `str(item.get('adNumber'))`
turns the absent field into the truthy string `"None"` and the record is
kept with that literal id (first conjunct); `main.py`'s
`str(item.get('id') or item.get('token'))` has the same slip (fourth
conjunct). -/
theorem C5_missing_id_becomes_None :
    (processItem [] [("price", .vint 5)]).map (fun a => a.id) = some "None" ∧
    processItem [] [("adNumber", .vstr "")] = none ∧
    (extract [] [[("adNumber", .vstr "")], [("adNumber", .vint 7), ("searchText", .vstr "flat")]]).map
      (fun a => a.id) = ["7"] ∧
    mainResolveId [("price", .vint 5)] = "None" :=
  ⟨rfl, rfl, rfl, rfl⟩

/-- C3: upserting a record whose id already exists updates that row's
last-seen to the current time and overwrites title, description and the
raw payload, while first-seen, status and the segment assignment keep the
values the stored row had. -/
theorem C3_upsert_conflict_frame
    (st : DBState) (d : AdData) (seg : Option String) (now : Nat) (r : AdRow)
    (hmem : r ∈ st.ads) (hid : r.id = d.id) :
    ∃ r' ∈ (saveSingleAd now d seg st).ads,
      r'.id = r.id ∧ r'.last_seen = now ∧ r'.title = d.title ∧ r'.description = d.description ∧
      r'.original_data = d.original_data ∧
      r'.first_seen = r.first_seen ∧ r'.status = r.status ∧ r'.segment_id = r.segment_id := by
  have hbeq : (r.id == d.id) = true := beq_iff_eq.mpr hid
  have hany : st.ads.any (fun x => x.id == d.id) = true :=
    List.any_eq_true.mpr ⟨r, hmem, hbeq⟩
  refine ⟨{ r with last_seen := now, title := d.title, description := d.description, original_data := d.original_data }, ?_, rfl, rfl, rfl, rfl, rfl, rfl, rfl, rfl⟩
  unfold saveSingleAd
  dsimp only
  rw [if_pos hany]
  have := List.mem_map_of_mem
    (fun x => if x.id == d.id then
        { x with last_seen := now, title := d.title, description := d.description,
                 original_data := d.original_data }
      else x) hmem
  dsimp only at this
  rw [if_pos hbeq] at this
  exact this

/-- C3 witness: upserting `adData1` (id "1") onto a store already holding
`adTelAviv` (id "1") at time 5. -/
theorem C3_upsert_conflict_frame_witness :
    ∃ r' ∈ (saveSingleAd 5 adData1 none dbTelAviv).ads,
      r'.id = adTelAviv.id ∧ r'.last_seen = 5 ∧ r'.title = adData1.title ∧
      r'.description = adData1.description ∧ r'.original_data = adData1.original_data ∧
      r'.first_seen = adTelAviv.first_seen ∧ r'.status = adTelAviv.status ∧
      r'.segment_id = adTelAviv.segment_id :=
  C3_upsert_conflict_frame dbTelAviv adData1 none 5 adTelAviv
    (List.mem_singleton.mpr rfl) rfl

/-- The insert arm of the ad upsert: when no stored row carries the id, a
fresh row is appended with server defaults for first-seen, last-seen and
status. -/
theorem saveSingleAd_ads_insert (now : Nat) (d : AdData) (seg : Option String) (st : DBState)
    (h : (st.ads.any fun r => r.id == d.id) = false) :
    (saveSingleAd now d seg st).ads =
      st.ads ++ [⟨d.id, seg, now, now, "active", d.title, d.description, d.city, d.neighborhood,
                  d.property_type, d.original_data⟩] := by
  unfold saveSingleAd
  dsimp only
  rw [if_neg (by simp [h])]

/-- The conflict arm of the ad upsert: when some stored row carries the id,
the table is mapped in place. -/
theorem saveSingleAd_ads_update (now : Nat) (d : AdData) (seg : Option String) (st : DBState)
    (h : (st.ads.any fun r => r.id == d.id) = true) :
    (saveSingleAd now d seg st).ads =
      st.ads.map (fun x => if x.id == d.id then { x with last_seen := now, title := d.title, description := d.description, original_data := d.original_data } else x) := by
  unfold saveSingleAd
  dsimp only
  rw [if_pos h]

/-- C4: ingesting the same normalized record twice (two singleton
`save_ads` batches, no persistence failure) leaves exactly one ad row with
its id but two history rows referencing it; and a history row is appended
unconditionally on every single-ad save (third conjunct). -/
theorem C4_ingest_twice_one_ad_two_snapshots
    (st0 : DBState) (d : AdData) (seg : Option String) (now1 now2 : Nat)
    (had : st0.ads.countP (fun r => r.id == d.id) = 0)
    (hhist : st0.history.countP (fun h => h.ad_id == d.id) = 0) :
    ((save_ads now2 [d] seg (fun _ => false)
        ((save_ads now1 [d] seg (fun _ => false) st0).1)).1.ads.countP
      (fun r => r.id == d.id) = 1) ∧
    ((save_ads now2 [d] seg (fun _ => false)
        ((save_ads now1 [d] seg (fun _ => false) st0).1)).1.history.countP
      (fun h => h.ad_id == d.id) = 2) ∧
    (∀ st : DBState, (saveSingleAd now2 d seg st).history =
        st.history ++ [⟨d.id, now2, d.price, d.rooms, d.square_meters, d.floor, d.attributes⟩]) := by
  have hpipe : (save_ads now2 [d] seg (fun _ => false)
      ((save_ads now1 [d] seg (fun _ => false) st0).1)).1 =
      saveSingleAd now2 d seg (saveSingleAd now1 d seg st0) := rfl
  have hany0 : (st0.ads.any fun x => x.id == d.id) = false :=
    List.any_eq_false.mpr (List.countP_eq_zero.mp had)
  have hads1 := saveSingleAd_ads_insert now1 d seg st0 hany0
  have hany1 : ((saveSingleAd now1 d seg st0).ads.any fun x => x.id == d.id) = true := by
    rw [hads1]
    exact List.any_eq_true.mpr ⟨_, List.mem_append_right _ (List.mem_singleton.mpr rfl),
      beq_self_eq_true d.id⟩
  have hupd : ∀ x : AdRow,
      (if (x.id == d.id) = true then { x with last_seen := now2, title := d.title, description := d.description, original_data := d.original_data } else x).id = x.id := by
    intro x; split <;> rfl
  refine ⟨?_, ?_, fun st => rfl⟩
  · rw [hpipe, saveSingleAd_ads_update now2 d seg _ hany1,
        countP_map_of_id_eq d.id _ hupd, hads1, List.countP_append, had]
    simp [List.countP_cons]
  · rw [hpipe]
    have h2 : (saveSingleAd now2 d seg (saveSingleAd now1 d seg st0)).history =
        (st0.history ++ [⟨d.id, now1, d.price, d.rooms, d.square_meters, d.floor, d.attributes⟩])
          ++ [⟨d.id, now2, d.price, d.rooms, d.square_meters, d.floor, d.attributes⟩] := rfl
    rw [h2, List.countP_append, List.countP_append, hhist]
    simp [List.countP_cons]

/-- C4 witness: ingesting `adData1` twice into the empty store. -/
theorem C4_ingest_twice_one_ad_two_snapshots_witness :
    ((save_ads 1 [adData1] none (fun _ => false)
        ((save_ads 0 [adData1] none (fun _ => false) dbEmpty).1)).1.ads.countP
      (fun r => r.id == adData1.id) = 1) ∧
    ((save_ads 1 [adData1] none (fun _ => false)
        ((save_ads 0 [adData1] none (fun _ => false) dbEmpty).1)).1.history.countP
      (fun h => h.ad_id == adData1.id) = 2) ∧
    (∀ st : DBState, (saveSingleAd 1 adData1 none st).history =
        st.history ++ [⟨adData1.id, 1, adData1.price, adData1.rooms, adData1.square_meters,
                        adData1.floor, adData1.attributes⟩]) :=
  C4_ingest_twice_one_ad_two_snapshots dbEmpty adData1 none 0 1 rfl rfl

/-- C7 counterexample: the batch `[adData1, adData2]` where persisting
`adData2` fails.  `save_ads` rolls the whole session back: the resulting ad
table is empty, so the earlier record's write did **not** remain persisted —
refuting the per-record-transaction claim (the third conjunct shows the
same first record does persist when its batch does not fail). -/
theorem C7_counterexample_rollback_spans_batch :
    ((save_ads 0 [adData1, adData2] none (fun d => d.id == "2") dbEmpty).1.ads = []) ∧
    ((save_ads 0 [adData1, adData2] none (fun d => d.id == "2") dbEmpty).2 = false) ∧
    ((save_ads 0 [adData1] none (fun _ => false) dbEmpty).1.ads.map (fun r => r.id) = ["1"]) :=
  ⟨rfl, rfl, rfl⟩

/-- C7 amended: the whole `save_ads` batch is one transaction: a
persistence failure while processing any record of the batch rolls back
every record's ad and history writes, leaving the store exactly as it was
before the batch (so an ad upsert and its paired history append still never
persist independently); a batch with no failure commits the sequential
writes of all its records. -/
theorem C7_batch_is_one_transaction
    (now : Nat) (batch : List AdData) (seg : Option String) (fail : AdData → Bool) (st : DBState) :
    ((save_ads now batch seg fail st).2 = false → (save_ads now batch seg fail st).1 = st) ∧
    ((∀ d ∈ batch, fail d = false) →
      save_ads now batch seg fail st =
        (batch.foldl (fun s d => saveSingleAd now d seg s) st, true)) := by
  constructor
  · intro h
    unfold save_ads at h ⊢
    cases hgo : saveAdsGo now seg fail batch st with
    | some st' => rw [hgo] at h; simp at h
    | none => rfl
  · intro hok
    unfold save_ads
    have hgo : ∀ (st : DBState), (∀ d ∈ batch, fail d = false) →
        saveAdsGo now seg fail batch st =
          some (batch.foldl (fun s d => saveSingleAd now d seg s) st) := by
      clear hok
      induction batch with
      | nil => intro st _; rfl
      | cons d ds ih =>
        intro st hok'
        have hd : fail d = false := hok' d (List.mem_cons_self d ds)
        unfold saveAdsGo
        rw [hd]
        simp only [Bool.false_eq_true, if_false]
        exact ih (saveSingleAd now d seg st) (fun x hx => hok' x (List.mem_cons_of_mem d hx))
    rw [hgo st hok]

/-- C7 witness: the failing two-record batch rolls back to the empty store;
the non-failing singleton batch commits its fold. -/
theorem C7_batch_is_one_transaction_witness :
    ((save_ads 0 [adData1, adData2] none (fun d => d.id == "2") dbEmpty).1 = dbEmpty) ∧
    (save_ads 0 [adData1] none (fun _ => false) dbEmpty =
      ([adData1].foldl (fun s d => saveSingleAd 0 d none s) dbEmpty, true)) :=
  ⟨(C7_batch_is_one_transaction 0 [adData1, adData2] none (fun d => d.id == "2") dbEmpty).1 rfl,
   (C7_batch_is_one_transaction 0 [adData1] none (fun _ => false) dbEmpty).2
     (fun _ _ => rfl)⟩

/-- C8: creating a segment is idempotent in the query key: a second create
with the same search url (whatever name/category it passes) returns the id
the first create returned and leaves the segment table — hence the stored
name and category — unchanged (first conjunct); a create on a missing key
inserts a new row and returns the fresh id (second conjunct); a create on
an existing key returns the stored row's id and writes nothing (third
conjunct). -/
theorem C8_create_segment_idempotent
    (fresh fresh2 url n c n' c' : String) (st : DBState) :
    (create_segment fresh2 url n' c' (create_segment fresh url n c st).2 =
      ((create_segment fresh url n c st).1, (create_segment fresh url n c st).2)) ∧
    (st.segments.find? (fun s => s.search_url == url) = none →
      create_segment fresh url n c st =
        (fresh, { st with segments := st.segments ++ [⟨fresh, url, n, c⟩] })) ∧
    (∀ s, st.segments.find? (fun s => s.search_url == url) = some s →
      create_segment fresh url n c st = (s.id, st)) := by
  refine ⟨?_, ?_, ?_⟩
  · cases hf : st.segments.find? (fun s => s.search_url == url) with
    | some s =>
      have h1 : create_segment fresh url n c st = (s.id, st) := by
        unfold create_segment; rw [hf]
      rw [h1]
      unfold create_segment; rw [hf]
    | none =>
      have h1 : create_segment fresh url n c st =
          (fresh, { st with segments := st.segments ++ [⟨fresh, url, n, c⟩] }) := by
        unfold create_segment; rw [hf]
      rw [h1]
      unfold create_segment
      dsimp only
      rw [List.find?_append, hf]
      simp [List.find?]
  · intro hf; unfold create_segment; rw [hf]
  · intro s hf; unfold create_segment; rw [hf]

/-- C8 witness: re-creating the segment with url "u" on a store already
holding it returns the stored id "s0" and changes nothing. -/
theorem C8_create_segment_idempotent_witness :
    create_segment "f1" "u" "n1" "c1" dbSeg = ("s0", dbSeg) :=
  (C8_create_segment_idempotent "f1" "f2" "u" "n1" "c1" "n2" "c2" dbSeg).2.2
    ⟨"s0", "u", "n0", "c0"⟩ rfl

/-- C2 counterexample: with the provided filter `max_price = 0`,
`search_vectors` on `dbTelAviv` returns its row with stored price
1,500,000 — a returned row whose stored price lies outside the given
price range (1,500,000 ≰ 0) — because a zero-valued bound is dropped by
the truthiness check instead of being applied. -/
theorem C2_counterexample_zero_max_price :
    ((search_vectors dbTelAviv (fun _ => 0) 5 (some { max_price := some 0 })).map
      (fun r => r.price) = [1500000]) ∧ ¬ ((1500000 : ℚ) ≤ 0) :=
  ⟨rfl, by norm_num⟩

/-- C2 amended: every filter that is provided with a truthy value (a
non-empty city, a non-zero bound) is applied conjunctively and exactly —
no returned row violates it, regardless of vector rank; results are
ordered by the distance key ascending and truncated to the limit; and when
no joined row passes the filters the result is the empty list, not an
error.  (Falsy filter values are dropped; that behaviour is C9.) -/
theorem C2_truthy_filters_exact_and_ranked
    (db : DBState) (dist : EmbRow → ℚ) (lim : Nat) (fl : Filters) :
    (∀ r ∈ search_vectors db dist lim (some fl),
      (∀ c, fl.city = some c → c ≠ "" → r.city = .vstr c) ∧
      (∀ p, fl.min_price = some p → p ≠ 0 → p ≤ r.price) ∧
      (∀ p, fl.max_price = some p → p ≠ 0 → r.price ≤ p) ∧
      (∀ q, fl.min_rooms = some q → q ≠ 0 → q ≤ r.rooms) ∧
      (∀ q, fl.max_rooms = some q → q ≠ 0 → r.rooms ≤ q)) ∧
    (search_vectors db dist lim (some fl)).length ≤ lim ∧
    List.Pairwise (fun a b => dist a.1 ≤ dist b.1) (searchRows db dist lim (some fl)) ∧
    ((joinRows db).filter (passesFilters fl) = [] →
      search_vectors db dist lim (some fl) = []) := by
  have hrows : searchRows db dist lim (some fl) =
      (((joinRows db).filter (passesFilters fl)).insertionSort
        (fun r1 r2 => dist r1.1 ≤ dist r2.1)).take lim := rfl
  refine ⟨?_, ?_, ?_, ?_⟩
  · intro r hr
    obtain ⟨row, hrow, hmap⟩ := List.mem_map.mp hr
    have hfl : passesFilters fl row = true := by
      have h1 : row ∈ ((joinRows db).filter (passesFilters fl)).insertionSort
          (fun r1 r2 => dist r1.1 ≤ dist r2.1) := by
        rw [hrows] at hrow
        exact List.take_subset _ _ hrow
      exact (List.mem_filter.mp ((List.mem_insertionSort _).mp h1)).2
    simp only [passesFilters, Bool.and_eq_true] at hfl
    obtain ⟨⟨⟨⟨hc, hp1⟩, hp2⟩, hq1⟩, hq2⟩ := hfl
    subst hmap
    refine ⟨?_, ?_, ?_, ?_, ?_⟩
    · intro c hcity hne
      rw [hcity] at hc
      dsimp only at hc
      rw [if_pos hne] at hc
      show row.2.city = .vstr c
      cases hcc : row.2.city <;> rw [hcc] at hc
      case vstr s => rw [show s = c from eq_of_beq hc]
      all_goals simp at hc
    · intro p hmp hpne
      rw [hmp] at hp1
      dsimp only at hp1
      rw [if_pos hpne] at hp1
      cases hmn : metaNum row.1 "price" with
      | some v =>
        rw [hmn] at hp1
        rw [toSearchResult_price_eq row v hmn]
        exact of_decide_eq_true hp1
      | none => rw [hmn] at hp1; simp at hp1
    · intro p hmp hpne
      rw [hmp] at hp2
      dsimp only at hp2
      rw [if_pos hpne] at hp2
      cases hmn : metaNum row.1 "price" with
      | some v =>
        rw [hmn] at hp2
        rw [toSearchResult_price_eq row v hmn]
        exact of_decide_eq_true hp2
      | none => rw [hmn] at hp2; simp at hp2
    · intro q hmq hqne
      rw [hmq] at hq1
      dsimp only at hq1
      rw [if_pos hqne] at hq1
      cases hmn : metaNum row.1 "rooms" with
      | some v =>
        rw [hmn] at hq1
        rw [toSearchResult_rooms_eq row v hmn]
        exact of_decide_eq_true hq1
      | none => rw [hmn] at hq1; simp at hq1
    · intro q hmq hqne
      rw [hmq] at hq2
      dsimp only at hq2
      rw [if_pos hqne] at hq2
      cases hmn : metaNum row.1 "rooms" with
      | some v =>
        rw [hmn] at hq2
        rw [toSearchResult_rooms_eq row v hmn]
        exact of_decide_eq_true hq2
      | none => rw [hmn] at hq2; simp at hq2
  · show (List.map toSearchResult (searchRows db dist lim (some fl))).length ≤ lim
    rw [List.length_map, hrows]
    exact List.length_take_le _ _
  · rw [hrows]
    have hs : List.Sorted (fun a b : EmbRow × AdRow => dist a.1 ≤ dist b.1)
        (((joinRows db).filter (passesFilters fl)).insertionSort
          (fun r1 r2 => dist r1.1 ≤ dist r2.1)) := by
      letI : IsTotal (EmbRow × AdRow) (fun a b => dist a.1 ≤ dist b.1) :=
        ⟨fun a b => le_total _ _⟩
      letI : IsTrans (EmbRow × AdRow) (fun a b => dist a.1 ≤ dist b.1) :=
        ⟨fun a b c hab hbc => le_trans hab hbc⟩
      exact List.sorted_insertionSort _ _
    exact List.Pairwise.sublist (List.take_sublist _ _) hs
  · intro h
    show List.map toSearchResult (searchRows db dist lim (some fl)) = []
    rw [hrows, h]
    simp

/-- C2 witness: the Tel Aviv row passes the filters min 1,000,000 /
max 2,000,000 / city "Tel Aviv" and its returned fields satisfy them. -/
theorem C2_truthy_filters_exact_and_ranked_witness :
    toSearchResult (embTelAviv, adTelAviv) ∈
      search_vectors dbTelAviv (fun _ => 0) 5
        (some { city := some "Tel Aviv", min_price := some 1000000, max_price := some 2000000 }) ∧
    (1000000 : ℚ) ≤ (toSearchResult (embTelAviv, adTelAviv)).price ∧
    (toSearchResult (embTelAviv, adTelAviv)).price ≤ 2000000 ∧
    (toSearchResult (embTelAviv, adTelAviv)).city = .vstr "Tel Aviv" := by
  have hmem : toSearchResult (embTelAviv, adTelAviv) ∈
      search_vectors dbTelAviv (fun _ => 0) 5
        (some { city := some "Tel Aviv", min_price := some 1000000, max_price := some 2000000 }) :=
    List.mem_singleton.mpr rfl
  have h := (C2_truthy_filters_exact_and_ranked dbTelAviv (fun _ => 0) 5
    { city := some "Tel Aviv", min_price := some 1000000, max_price := some 2000000 }).1
    _ hmem
  exact ⟨hmem, h.2.1 1000000 rfl (by norm_num), h.2.2.1 2000000 rfl (by norm_num),
         h.1 "Tel Aviv" rfl (by decide)⟩

/-- C9: a zero-valued numeric filter or an empty-string city filter is a
no-op in `search_vectors` — the results are identical to those with the
filter absent — and the `real_estate_search` tool's filter dictionary
likewise drops zero/empty arguments, because presence is tested by
truthiness rather than key presence. -/
theorem C9_zero_valued_filters_are_noops
    (db : DBState) (dist : EmbRow → ℚ) (lim : Nat) (fl : Filters) :
    (search_vectors db dist lim (some { fl with min_price := some 0 }) =
      search_vectors db dist lim (some { fl with min_price := none })) ∧
    (search_vectors db dist lim (some { fl with max_price := some 0 }) =
      search_vectors db dist lim (some { fl with max_price := none })) ∧
    (search_vectors db dist lim (some { fl with min_rooms := some 0 }) =
      search_vectors db dist lim (some { fl with min_rooms := none })) ∧
    (search_vectors db dist lim (some { fl with max_rooms := some 0 }) =
      search_vectors db dist lim (some { fl with max_rooms := none })) ∧
    (search_vectors db dist lim (some { fl with city := some "" }) =
      search_vectors db dist lim (some { fl with city := none })) ∧
    (∀ mp mr xr ct, buildFilters (some 0) mp mr xr ct = buildFilters none mp mr xr ct) ∧
    (∀ np mr xr ct, buildFilters np (some 0) mr xr ct = buildFilters np none mr xr ct) ∧
    (∀ np mp xr ct, buildFilters np mp (some 0) xr ct = buildFilters np mp none xr ct) ∧
    (∀ np mp mr ct, buildFilters np mp mr (some 0) ct = buildFilters np mp mr none ct) ∧
    (∀ np mp mr xr, buildFilters np mp mr xr (some "") = buildFilters np mp mr xr none) := by
  refine ⟨?_, ?_, ?_, ?_, ?_, ?_, ?_, ?_, ?_, ?_⟩
  · exact search_eq_of_passes_eq db dist lim (fun row => by simp [passesFilters])
  · exact search_eq_of_passes_eq db dist lim (fun row => by simp [passesFilters])
  · exact search_eq_of_passes_eq db dist lim (fun row => by simp [passesFilters])
  · exact search_eq_of_passes_eq db dist lim (fun row => by simp [passesFilters])
  · exact search_eq_of_passes_eq db dist lim (fun row => by simp [passesFilters])
  · intro mp mr xr ct; simp [buildFilters]
  · intro np mr xr ct; simp [buildFilters]
  · intro np mp xr ct; simp [buildFilters]
  · intro np mp mr ct; simp [buildFilters]
  · intro np mp mr xr; simp [buildFilters]

/-- C10: every row `search_vectors` returns carries `score = 0`, whatever
the query distances, limit and filters: ordering is the only similarity
signal exposed. -/
theorem C10_score_always_zero (db : DBState) (dist : EmbRow → ℚ) (lim : Nat)
    (filters : Option Filters) (r : SearchResult)
    (hr : r ∈ search_vectors db dist lim filters) : r.score = 0 := by
  obtain ⟨row, _, hmap⟩ := List.mem_map.mp hr
  rw [← hmap]
  rfl

/-- C10 witness: the row `dbTelAviv` returns for an unfiltered search has
score 0. -/
theorem C10_score_always_zero_witness :
    (toSearchResult (embTelAviv, adTelAviv)).score = 0 :=
  C10_score_always_zero dbTelAviv (fun _ => 0) 5 none _ (List.mem_singleton.mpr rfl)

/-- C1: evaluation at the failing input.  Re-ingesting the unchanged
single-item batch `[itemNice]` through `process_file`: the first run sends
the (deterministically rebuilt) context document to the embedding gateway
once and stores `hashFn docNice` as the embedding's hash; the second run
rebuilds the identical document, so its hash equals the stored one, yet the
gateway is called again — for every hash function, because the stored hash
is never consulted.  The last conjunct shows the `main.py` embedding stage
likewise calls the gateway for every ad of every batch. -/
theorem C1_gateway_called_on_unchanged_reingest
    (hashFn : String → String) (vecOf : String → List ℚ) (st : DBState) :
    ((process_file hashFn vecOf (fun _ => false) (fun _ => false) 0 (.vstr "Haifa")
        [itemNice] dbEmpty).2 = [docNice]) ∧
    ((process_file hashFn vecOf (fun _ => false) (fun _ => false) 1 (.vstr "Haifa") [itemNice]
        (process_file hashFn vecOf (fun _ => false) (fun _ => false) 0 (.vstr "Haifa")
          [itemNice] dbEmpty).1).2 = [docNice]) ∧
    ((process_file hashFn vecOf (fun _ => false) (fun _ => false) 0 (.vstr "Haifa")
        [itemNice] dbEmpty).1.embeddings.map (fun e => e.context_hash) = [hashFn docNice]) ∧
    ((mainEmbedStage vecOf (fun _ => false) 0 [adData1] st).2.length = 1) :=
  ⟨rfl, rfl, rfl, rfl⟩
